import Mathlib

/-!
Shallow embedding of
`arduino-ide-extension/src/browser/widgets/sketchbook/sketchbook-widget-contribution.ts`
(the `SketchbookWidgetContribution` class): the context-menu handler for
`OPEN_SKETCHBOOK_CONTEXT_MENU`, the command handlers and enablement
predicates for `OPEN_NEW_WINDOW` and `REVEAL_IN_FINDER`, and the
tab-change selection synchronization (`selectWidgetFileNode`,
`onCurrentWidgetChangedHandler`).

Data that lives outside the source file (`SketchbookCommands`,
`PlaceholderMenuNode`, `SketchbookTree.SketchDirNode.is`) is modelled
from the spec, as noted on the individual definitions.
-/

/-- Modelled from the spec: a node of the sketchbook tree. The spec's data
model gives a `TreeNode` "a URI, an identity, and a boolean 'is sketch
directory'". The `uri` field holds the string form of the node's URI (the
source compares `arg.node.uri.toString()` against the current sketch URI);
`id` is the node identity passed to `shell.openPath`; `isSketchDir` records
whether `SketchbookTree.SketchDirNode.is` holds of the node
(`SketchbookTree` is not among the sources). -/
structure SketchNode where
  uri : String
  id : String
  isSketchDir : Bool
deriving DecidableEq

/-- Modelled from the spec: a command descriptor from `SketchbookCommands`
(not among the sources); only its `id` and `label` are used by the
contribution. -/
structure CommandDesc where
  id : String
  label : String
deriving DecidableEq

/-- Modelled from the spec: the `SketchbookCommands.OPEN_NEW_WINDOW`
descriptor ("open in new window" command). The concrete strings stand in
for the unknown literals; the proofs only rely on them being fixed. -/
def OPEN_NEW_WINDOW : CommandDesc :=
  { id := "arduino-sketchbook--open-sketch-new-window"
    label := "Open Sketch in New Window" }

/-- Modelled from the spec: the `SketchbookCommands.REVEAL_IN_FINDER`
descriptor ("reveal in file system" command). -/
def REVEAL_IN_FINDER : CommandDesc :=
  { id := "arduino-sketchbook--reveal-in-finder"
    label := "Open Folder" }

/-- Modelled from the spec: the id of a `PlaceholderMenuNode` built for a
given label (`PlaceholderMenuNode` is not among the sources; the spec
describes it as a non-actionable, informational entry that the disposal
unregisters by its id). -/
def placeholderId (label : String) : String :=
  "placeholder-" ++ label

/-- An entry of the menu registry under `SKETCHBOOK__CONTEXT__MAIN_GROUP`:
either a plain menu node registered via `registerMenuNode` (the
placeholder case) or an action registered via `registerMenuAction`. -/
inductive MenuEntry where
  | node (id : String)
  | action (commandId : String) (label : String)
deriving DecidableEq

/-- Modelled from the spec: an `action` entry is clickable, a plain
(placeholder) `node` entry is non-actionable/informational. -/
def MenuEntry.isActionable : MenuEntry → Bool
  | .node _ => false
  | .action _ _ => true

/-- A disposable pushed onto `toDisposeBeforeNewContextMenu`: the source
creates either `Disposable.create(() => menuRegistry.unregisterMenuNode(placeholder.id))`
or `Disposable.create(() => menuRegistry.unregisterMenuAction(OPEN_NEW_WINDOW))`. -/
inductive Disposal where
  | unregisterMenuNode (id : String)
  | unregisterMenuAction (commandId : String)
deriving DecidableEq

/-- Whether running a disposal removes a given menu entry:
`unregisterMenuNode` removes the node with the given id,
`unregisterMenuAction` removes the action with the given command id. -/
def removedBy : Disposal → MenuEntry → Bool
  | .unregisterMenuNode i, .node nid => nid == i
  | .unregisterMenuAction c, .action cid _ => cid == c
  | _, _ => false

/-- Running one disposal against the menu registry. -/
def applyDisposal (menu : List MenuEntry) (d : Disposal) : List MenuEntry :=
  menu.filter (fun e => ! removedBy d e)

/-- `DisposableCollection.dispose()`: run every recorded disposal against
the menu registry. -/
def runDisposals (ds : List Disposal) (menu : List MenuEntry) : List MenuEntry :=
  ds.foldl applyDisposal menu

/-- The DOM element `arg.event.target`: the source reads
`getBoundingClientRect().left`, `getBoundingClientRect().top` and
`offsetHeight` from it. -/
structure DomElement where
  boundingLeft : Int
  boundingTop : Int
  offsetHeight : Int
deriving DecidableEq

/-- The argument of the `OPEN_SKETCHBOOK_CONTEXT_MENU` execute handler: a
tree node plus the (possibly unavailable) event-target element. -/
structure CtxMenuArg where
  node : SketchNode
  eventTarget : Option DomElement
deriving DecidableEq

/-- The current sketch as returned by
`sketchServiceClient.currentSketch()`; only its `uri` is read. -/
structure Sketch where
  uri : String
deriving DecidableEq

/-- Observable operations performed by the context-menu handler, in
order: disposing the previous entries, registering an entry, rendering
the menu at an anchor. -/
inductive CtxOp where
  | disposePrevious
  | registerEntry (e : MenuEntry)
  | render (x y : Int)
deriving DecidableEq

/-- The state touched by the context-menu handler: the
`toDisposeBeforeNewContextMenu` collection, the menu-registry entries of
the sketchbook context group, and a trace of the operations performed. -/
structure CtxState where
  toDispose : List Disposal
  menu : List MenuEntry
  trace : List CtxOp
deriving DecidableEq

/-- The placeholder entry registered for the current sketch:
`new PlaceholderMenuNode(SKETCHBOOK__CONTEXT__MAIN_GROUP, OPEN_NEW_WINDOW.label)`. -/
def newWindowPlaceholder : MenuEntry :=
  MenuEntry.node (placeholderId OPEN_NEW_WINDOW.label)

/-- The live action entry registered for any other node:
`registerMenuAction(SKETCHBOOK__CONTEXT__MAIN_GROUP, \x7b commandId: OPEN_NEW_WINDOW.id, label: OPEN_NEW_WINDOW.label \x7d)`. -/
def newWindowAction : MenuEntry :=
  MenuEntry.action OPEN_NEW_WINDOW.id OPEN_NEW_WINDOW.label

/-- The guard `currentSketch && currentSketch.uri === arg.node.uri.toString()`. -/
def sketchMatches (currentSketch : Option Sketch) (node : SketchNode) : Bool :=
  match currentSketch with
  | some sk => sk.uri == node.uri
  | none => false

/-- The `execute` handler of `OPEN_SKETCHBOOK_CONTEXT_MENU`:
first `toDisposeBeforeNewContextMenu.dispose()`, then the
`if (!container) return` guard, then registration of exactly one of the
two entry variants (placeholder for the current sketch, live action
otherwise) with its disposal pushed, then
`contextMenuRenderer.render` anchored at
`(rect.left, rect.top + offsetHeight)`. -/
def executeContextMenu (currentSketch : Option Sketch) (arg : CtxMenuArg)
    (s : CtxState) : CtxState :=
  let s1 : CtxState :=
    { toDispose := []
      menu := runDisposals s.toDispose s.menu
      trace := s.trace ++ [CtxOp.disposePrevious] }
  match arg.eventTarget with
  | none => s1
  | some container =>
    let s2 : CtxState :=
      if sketchMatches currentSketch arg.node then
        { s1 with
            menu := s1.menu ++ [newWindowPlaceholder]
            toDispose := s1.toDispose ++
              [Disposal.unregisterMenuNode (placeholderId OPEN_NEW_WINDOW.label)]
            trace := s1.trace ++ [CtxOp.registerEntry newWindowPlaceholder] }
      else
        { s1 with
            menu := s1.menu ++ [newWindowAction]
            toDispose := s1.toDispose ++
              [Disposal.unregisterMenuAction OPEN_NEW_WINDOW.id]
            trace := s1.trace ++ [CtxOp.registerEntry newWindowAction] }
    { s2 with
        trace := s2.trace ++
          [CtxOp.render container.boundingLeft
            (container.boundingTop + container.offsetHeight)] }

/-- Whether a menu entry is an "open in new window" entry (either
variant the handler can register). -/
def isNewWindowEntry : MenuEntry → Bool
  | .node i => i == placeholderId OPEN_NEW_WINDOW.label
  | .action c _ => c == OPEN_NEW_WINDOW.id

/-- Number of live "open in new window" entries in the menu registry. -/
def newWindowCount (menu : List MenuEntry) : Nat :=
  menu.countP (fun e => isNewWindowEntry e)

/-- The disposal collection can undo every "open in new window" entry
currently in the registry: running the recorded disposals leaves no such
entry. This holds of the initial state (both empty) and is preserved by
the handler. -/
def disposalInv (s : CtxState) : Prop :=
  newWindowCount (runDisposals s.toDispose s.menu) = 0

/-- A node of the navigator tree as returned by `model.revealFile`; the
`selectable` flag records whether `SelectableTreeNode.is` holds of it. -/
structure RevealNode where
  id : String
  selectable : Bool
deriving DecidableEq

/-- The widget delivered by a tab change: whether `Navigatable.is` holds
of it, and what `getResourceUri()` returns (none models `undefined`). -/
structure NavWidget where
  navigatable : Bool
  resourceUri : Option String
deriving DecidableEq

/-- The tree-model state touched by `selectWidgetFileNode`: the single
selection, plus a log of the URIs passed to `model.revealFile` (which
expands the tree towards the file). -/
structure NavState where
  selection : Option RevealNode
  revealed : List String
deriving DecidableEq

/-- `selectWidgetFileNode(widget)`: if `Navigatable.is(widget)` and the
widget has a resource URI, ask the tree model to `revealFile` it and, if
the resulting node satisfies `SelectableTreeNode.is`, select it; in
every other case do nothing. `revealFile` is passed in as the tree
model's lookup function. -/
def selectWidgetFileNode (revealFile : String → Option RevealNode)
    (widget : Option NavWidget) (s : NavState) : NavState :=
  match widget with
  | none => s
  | some w =>
    if w.navigatable then
      match w.resourceUri with
      | some uri =>
        match revealFile uri with
        | some node =>
          if node.selectable then
            { selection := some node, revealed := s.revealed ++ [uri] }
          else
            { s with revealed := s.revealed ++ [uri] }
        | none => { s with revealed := s.revealed ++ [uri] }
      | none => s
    else s

/-- `onCurrentWidgetChangedHandler`: on a tab change, call
`selectWidgetFileNode(shell.currentWidget)` only when the
`explorer.autoReveal` preference is enabled. -/
def onCurrentWidgetChangedHandler (autoReveal : Bool)
    (revealFile : String → Option RevealNode)
    (currentWidget : Option NavWidget) (s : NavState) : NavState :=
  if autoReveal then selectWidgetFileNode revealFile currentWidget s else s

/-- The raw argument of a command invocation: falsy (`undefined`/`null`),
a truthy value without a `node` property, or a value carrying a node. -/
inductive CmdArg where
  | nullish
  | withoutNode
  | withNode (n : SketchNode)
deriving DecidableEq

/-- The JavaScript truthiness test `!!arg`. -/
def argTruthy : CmdArg → Bool
  | .nullish => false
  | _ => true

/-- The property test `'node' in arg`. -/
def argHasNode : CmdArg → Bool
  | .withNode _ => true
  | _ => false

/-- `SketchbookTree.SketchDirNode.is(arg.node)`: false when the argument
carries no node at all. -/
def argNodeIsSketchDir : CmdArg → Bool
  | .withNode n => n.isSketchDir
  | _ => false

/-- `isEnabled` of `OPEN_NEW_WINDOW`:
`!!arg && 'node' in arg && SketchbookTree.SketchDirNode.is(arg.node)`. -/
def openNewWindow_isEnabled (a : CmdArg) : Bool :=
  argTruthy a && (argHasNode a && argNodeIsSketchDir a)

/-- `isVisible` of `OPEN_NEW_WINDOW` (the same lambda body). -/
def openNewWindow_isVisible (a : CmdArg) : Bool :=
  argTruthy a && (argHasNode a && argNodeIsSketchDir a)

/-- `isEnabled` of `REVEAL_IN_FINDER` (the same lambda body). -/
def revealInFinder_isEnabled (a : CmdArg) : Bool :=
  argTruthy a && (argHasNode a && argNodeIsSketchDir a)

/-- `isVisible` of `REVEAL_IN_FINDER` (the same lambda body). -/
def revealInFinder_isVisible (a : CmdArg) : Bool :=
  argTruthy a && (argHasNode a && argNodeIsSketchDir a)

/-- `isEnabled` of `OPEN_SKETCHBOOK_CONTEXT_MENU` (the same lambda body). -/
def contextMenu_isEnabled (a : CmdArg) : Bool :=
  argTruthy a && (argHasNode a && argNodeIsSketchDir a)

/-- `isVisible` of `OPEN_SKETCHBOOK_CONTEXT_MENU` (the same lambda body). -/
def contextMenu_isVisible (a : CmdArg) : Bool :=
  argTruthy a && (argHasNode a && argNodeIsSketchDir a)

/-- Calls the command handlers make to external services. -/
inductive ServiceCall where
  | toUnderlyingResource (uri : String)
  | workspaceOpen (uri : String)
  | shellOpenPath (path : String)
deriving DecidableEq

/-- The `execute` handler of `OPEN_NEW_WINDOW`:
`const underlying = await fileService.toUnderlyingResource(arg.node.uri); return workspaceService.open(underlying)`.
`resolve` is the file service's resolver; the result is the ordered call
trace. -/
def executeOpenNewWindow (resolve : String → String) (node : SketchNode) :
    List ServiceCall :=
  let underlying := resolve node.uri
  [ServiceCall.toUnderlyingResource node.uri, ServiceCall.workspaceOpen underlying]

/-- The `execute` handler of `REVEAL_IN_FINDER`:
`shell.openPath(arg.node.id)`, its returned promise discarded.
`openPathResult` is the result `shell.openPath` would produce; the
handler never looks at it. -/
def executeRevealInFinder (openPathResult : String → String)
    (node : SketchNode) : List ServiceCall :=
  let _result := openPathResult node.id
  [ServiceCall.shellOpenPath node.id]

/-- A concrete sketch-directory node used by the witnesses. -/
def sampleNode : SketchNode :=
  { uri := "file:///home/sketchbook/blink"
    id := "file:///home/sketchbook/blink"
    isSketchDir := true }

/-- A concrete event-target element used by the witnesses. -/
def sampleElem : DomElement :=
  { boundingLeft := 10, boundingTop := 20, offsetHeight := 30 }

/-- A context-menu argument with an available anchor element. -/
def sampleArg : CtxMenuArg :=
  { node := sampleNode, eventTarget := some sampleElem }

/-- A context-menu argument whose anchor element is unavailable. -/
def noAnchorArg : CtxMenuArg :=
  { node := sampleNode, eventTarget := none }

/-- The initial handler state: nothing registered, nothing to dispose. -/
def emptyCtxState : CtxState :=
  { toDispose := [], menu := [], trace := [] }

/-- A state left behind by a previous context-menu invocation: one live
"open in new window" action in the registry and its disposal recorded. -/
def staleCtxState : CtxState :=
  { toDispose := [Disposal.unregisterMenuAction OPEN_NEW_WINDOW.id]
    menu := [newWindowAction]
    trace := [] }

/-- A concrete selectable tree node used by the witnesses. -/
def sampleRevealNode : RevealNode :=
  { id := "node-a", selectable := true }

/-- A concrete tree-model lookup used by the witnesses. -/
def sampleRevealFn (u : String) : Option RevealNode :=
  if u == "file:///home/sketchbook/blink/blink.ino" then some sampleRevealNode
  else none

/-- A concrete navigatable widget used by the witnesses. -/
def sampleWidget : NavWidget :=
  { navigatable := true
    resourceUri := some "file:///home/sketchbook/blink/blink.ino" }

/-- The initial tree state: no selection, nothing revealed. -/
def emptyNavState : NavState :=
  { selection := none, revealed := [] }

theorem isNewWindowEntry_placeholder : isNewWindowEntry newWindowPlaceholder = true := by
  decide

theorem isNewWindowEntry_action : isNewWindowEntry newWindowAction = true := by
  decide

theorem removedBy_placeholder :
    removedBy (Disposal.unregisterMenuNode (placeholderId OPEN_NEW_WINDOW.label))
      newWindowPlaceholder = true := by
  decide

theorem removedBy_action :
    removedBy (Disposal.unregisterMenuAction OPEN_NEW_WINDOW.id) newWindowAction = true := by
  decide

theorem newWindowCount_applyDisposal_le (m : List MenuEntry) (d : Disposal) :
    newWindowCount (applyDisposal m d) ≤ newWindowCount m :=
  List.Sublist.countP_le _ (List.filter_sublist m)

theorem newWindowCount_runDisposals_le (ds : List Disposal) (m : List MenuEntry) :
    newWindowCount (runDisposals ds m) ≤ newWindowCount m := by
  induction ds generalizing m with
  | nil => exact Nat.le_refl _
  | cons d ds ih =>
      exact Nat.le_trans (ih (applyDisposal m d)) (newWindowCount_applyDisposal_le m d)

theorem newWindowCount_append (m1 m2 : List MenuEntry) :
    newWindowCount (m1 ++ m2) = newWindowCount m1 + newWindowCount m2 :=
  List.countP_append _ _ _

theorem disposalInv_register (m : List MenuEntry) (d : Disposal) (e : MenuEntry)
    (hm : newWindowCount m = 0) (he : removedBy d e = true) :
    newWindowCount (runDisposals [d] (m ++ [e])) = 0 := by
  show newWindowCount (applyDisposal (m ++ [e]) d) = 0
  unfold applyDisposal
  rw [List.filter_append]
  have h1 : List.filter (fun x => ! removedBy d x) [e] = [] := by
    simp [List.filter, he]
  rw [h1, List.append_nil]
  have h2 : newWindowCount (List.filter (fun x => ! removedBy d x) m) ≤ newWindowCount m :=
    List.Sublist.countP_le _ (List.filter_sublist m)
  exact Nat.le_zero.mp (hm ▸ h2)

theorem executeContextMenu_matched (cs : Option Sketch) (a : CtxMenuArg)
    (s : CtxState) (c : DomElement) (hc : a.eventTarget = some c)
    (hm : sketchMatches cs a.node = true) :
    executeContextMenu cs a s =
      { toDispose := [Disposal.unregisterMenuNode (placeholderId OPEN_NEW_WINDOW.label)]
        menu := runDisposals s.toDispose s.menu ++ [newWindowPlaceholder]
        trace := s.trace ++ [CtxOp.disposePrevious,
          CtxOp.registerEntry newWindowPlaceholder,
          CtxOp.render c.boundingLeft (c.boundingTop + c.offsetHeight)] } := by
  simp [executeContextMenu, hc, hm]

theorem executeContextMenu_other (cs : Option Sketch) (a : CtxMenuArg)
    (s : CtxState) (c : DomElement) (hc : a.eventTarget = some c)
    (hm : sketchMatches cs a.node = false) :
    executeContextMenu cs a s =
      { toDispose := [Disposal.unregisterMenuAction OPEN_NEW_WINDOW.id]
        menu := runDisposals s.toDispose s.menu ++ [newWindowAction]
        trace := s.trace ++ [CtxOp.disposePrevious,
          CtxOp.registerEntry newWindowAction,
          CtxOp.render c.boundingLeft (c.boundingTop + c.offsetHeight)] } := by
  simp [executeContextMenu, hc, hm]

theorem executeContextMenu_noAnchor (cs : Option Sketch) (a : CtxMenuArg)
    (s : CtxState) (hc : a.eventTarget = none) :
    executeContextMenu cs a s =
      { toDispose := []
        menu := runDisposals s.toDispose s.menu
        trace := s.trace ++ [CtxOp.disposePrevious] } := by
  simp [executeContextMenu, hc]

theorem executeContextMenu_step (cs : Option Sketch) (a : CtxMenuArg)
    (s : CtxState) (hinv : disposalInv s) (c : DomElement)
    (hc : a.eventTarget = some c) :
    newWindowCount (executeContextMenu cs a s).menu = 1 ∧
      disposalInv (executeContextMenu cs a s) := by
  have hz : newWindowCount (runDisposals s.toDispose s.menu) = 0 := hinv
  by_cases hm : sketchMatches cs a.node
  · rw [executeContextMenu_matched cs a s c hc hm]
    refine ⟨?_, ?_⟩
    · rw [newWindowCount_append, hz]
      simp [newWindowCount, List.countP, List.countP.go, isNewWindowEntry_placeholder]
    · show newWindowCount (runDisposals
        [Disposal.unregisterMenuNode (placeholderId OPEN_NEW_WINDOW.label)]
        (runDisposals s.toDispose s.menu ++ [newWindowPlaceholder])) = 0
      exact disposalInv_register _ _ _ hz removedBy_placeholder
  · rw [executeContextMenu_other cs a s c hc (by simpa using hm)]
    refine ⟨?_, ?_⟩
    · rw [newWindowCount_append, hz]
      simp [newWindowCount, List.countP, List.countP.go, isNewWindowEntry_action]
    · show newWindowCount (runDisposals
        [Disposal.unregisterMenuAction OPEN_NEW_WINDOW.id]
        (runDisposals s.toDispose s.menu ++ [newWindowAction])) = 0
      exact disposalInv_register _ _ _ hz removedBy_action

/-- Claim C1: every invocation of the context-menu handler first disposes
the entries registered by the previous invocation (via
`toDisposeBeforeNewContextMenu`) before registering a new one, so from any
state whose disposal collection undoes its "open in new window" entries,
one invocation leaves exactly one live "open in new window" registration,
and a second invocation still leaves exactly one (no accumulation). -/
theorem contextMenu_single_live_registration (cs1 cs2 : Option Sketch)
    (a1 a2 : CtxMenuArg) (s : CtxState) (hinv : disposalInv s)
    (c1 : DomElement) (h1 : a1.eventTarget = some c1)
    (c2 : DomElement) (h2 : a2.eventTarget = some c2) :
    newWindowCount (executeContextMenu cs1 a1 s).menu = 1 ∧
      newWindowCount
        (executeContextMenu cs2 a2 (executeContextMenu cs1 a1 s)).menu = 1 := by
  obtain ⟨hone, hinv1⟩ := executeContextMenu_step cs1 a1 s hinv c1 h1
  obtain ⟨htwo, _⟩ := executeContextMenu_step cs2 a2 _ hinv1 c2 h2
  exact ⟨hone, htwo⟩

theorem contextMenu_single_live_registration_witness :
    newWindowCount (executeContextMenu none sampleArg emptyCtxState).menu = 1 ∧
      newWindowCount (executeContextMenu none sampleArg
        (executeContextMenu none sampleArg emptyCtxState)).menu = 1 :=
  contextMenu_single_live_registration none none sampleArg sampleArg emptyCtxState
    (by unfold disposalInv; decide) sampleElem rfl sampleElem rfl

theorem sketchMatches_true_iff (cs : Option Sketch) (n : SketchNode) :
    sketchMatches cs n = true ↔ ∃ sk, cs = some sk ∧ sk.uri = n.uri := by
  cases cs with
  | none => simp [sketchMatches]
  | some sk => simp [sketchMatches]

theorem sketchMatches_false_iff (cs : Option Sketch) (n : SketchNode) :
    sketchMatches cs n = false ↔ ∀ sk, cs = some sk → sk.uri ≠ n.uri := by
  cases cs with
  | none => simp [sketchMatches]
  | some sk => simp [sketchMatches]

/-- Claim C2: the context-menu build is keyed by whether the clicked
node's URI equals the current sketch's URI: when there is a current
sketch and its URI equals the node's URI (as a string), the handler
registers the non-actionable placeholder; for any other node it registers
the live action bound to the `OPEN_NEW_WINDOW` command. -/
theorem contextMenu_two_state (cs : Option Sketch) (a : CtxMenuArg)
    (s : CtxState) (c : DomElement) (hc : a.eventTarget = some c) :
    ((∃ sk, cs = some sk ∧ sk.uri = a.node.uri) →
        (executeContextMenu cs a s).menu =
          runDisposals s.toDispose s.menu ++ [newWindowPlaceholder] ∧
        newWindowPlaceholder.isActionable = false) ∧
    ((∀ sk, cs = some sk → sk.uri ≠ a.node.uri) →
        (executeContextMenu cs a s).menu =
          runDisposals s.toDispose s.menu ++ [newWindowAction] ∧
        newWindowAction = MenuEntry.action OPEN_NEW_WINDOW.id OPEN_NEW_WINDOW.label ∧
        newWindowAction.isActionable = true) := by
  constructor
  · intro h
    have hm : sketchMatches cs a.node = true := (sketchMatches_true_iff cs a.node).mpr h
    rw [executeContextMenu_matched cs a s c hc hm]
    exact ⟨rfl, rfl⟩
  · intro h
    have hm : sketchMatches cs a.node = false := (sketchMatches_false_iff cs a.node).mpr h
    rw [executeContextMenu_other cs a s c hc hm]
    exact ⟨rfl, rfl, rfl⟩

theorem contextMenu_two_state_witness :
    (executeContextMenu (some { uri := sampleNode.uri }) sampleArg emptyCtxState).menu =
      runDisposals emptyCtxState.toDispose emptyCtxState.menu ++ [newWindowPlaceholder] ∧
    newWindowPlaceholder.isActionable = false :=
  (contextMenu_two_state (some { uri := sampleNode.uri }) sampleArg emptyCtxState
    sampleElem rfl).1 ⟨{ uri := sampleNode.uri }, rfl, rfl⟩

/-- Claim C5 counterexample: with a live entry left by a previous
invocation, calling the handler with an unavailable anchor element is not
a state-preserving no-op — the previous registration is still disposed,
so the menu registry changes. -/
theorem contextMenu_missingAnchor_not_noop :
    (executeContextMenu none noAnchorArg staleCtxState).menu ≠ staleCtxState.menu := by
  decide

/-- Claim C5 (amended): if the anchor element is unavailable the handler
aborts before registering or rendering anything — the trace gains no
register or render operation and the new disposal list is empty — but it
has already disposed the previous invocation's entries, so the menu
registry is left as the previous entries' disposal leaves it (not
necessarily unchanged). -/
theorem contextMenu_missingAnchor_aborts (cs : Option Sketch)
    (a : CtxMenuArg) (s : CtxState) (hc : a.eventTarget = none) :
    (executeContextMenu cs a s).menu = runDisposals s.toDispose s.menu ∧
      (executeContextMenu cs a s).toDispose = [] ∧
      (executeContextMenu cs a s).trace = s.trace ++ [CtxOp.disposePrevious] := by
  rw [executeContextMenu_noAnchor cs a s hc]
  exact ⟨rfl, rfl, rfl⟩

theorem contextMenu_missingAnchor_aborts_witness :
    (executeContextMenu none noAnchorArg staleCtxState).menu =
      runDisposals staleCtxState.toDispose staleCtxState.menu ∧
      (executeContextMenu none noAnchorArg staleCtxState).toDispose = [] ∧
      (executeContextMenu none noAnchorArg staleCtxState).trace =
        staleCtxState.trace ++ [CtxOp.disposePrevious] :=
  contextMenu_missingAnchor_aborts none noAnchorArg staleCtxState rfl

/-- Claim C8: when the handler renders a menu, the operations happen in
the order dispose-previous, register exactly one of the two entry
variants, then render at the anchor whose x is the element's bounding-box
left edge and whose y is its bounding-box top edge plus the element's
height. -/
theorem contextMenu_operation_order (cs : Option Sketch) (a : CtxMenuArg)
    (s : CtxState) (c : DomElement) (hc : a.eventTarget = some c) :
    ∃ e, (e = newWindowPlaceholder ∨ e = newWindowAction) ∧
      (executeContextMenu cs a s).trace =
        s.trace ++ [CtxOp.disposePrevious, CtxOp.registerEntry e,
          CtxOp.render c.boundingLeft (c.boundingTop + c.offsetHeight)] := by
  by_cases hm : sketchMatches cs a.node
  · exact ⟨newWindowPlaceholder, Or.inl rfl, by
      rw [executeContextMenu_matched cs a s c hc hm]⟩
  · exact ⟨newWindowAction, Or.inr rfl, by
      rw [executeContextMenu_other cs a s c hc (by simpa using hm)]⟩

theorem contextMenu_operation_order_witness :
    ∃ e, (e = newWindowPlaceholder ∨ e = newWindowAction) ∧
      (executeContextMenu none sampleArg emptyCtxState).trace =
        emptyCtxState.trace ++ [CtxOp.disposePrevious, CtxOp.registerEntry e,
          CtxOp.render sampleElem.boundingLeft
            (sampleElem.boundingTop + sampleElem.offsetHeight)] :=
  contextMenu_operation_order none sampleArg emptyCtxState sampleElem rfl

/-- Claim C3: on a tab change with the auto-reveal preference enabled and
a navigatable widget exposing a resource URI, the tree model is asked to
reveal that URI; if the returned node is selectable it becomes the single
selection, and if the model returns no node (or a non-selectable one) the
selection is untouched — a silent no-op, there being no error channel. -/
theorem tabChange_reveals_and_selects (autoReveal : Bool)
    (revealFile : String → Option RevealNode) (w : NavWidget) (uri : String)
    (s : NavState) (har : autoReveal = true)
    (hnav : w.navigatable = true) (huri : w.resourceUri = some uri) :
    (onCurrentWidgetChangedHandler autoReveal revealFile (some w) s).revealed =
      s.revealed ++ [uri] ∧
    (∀ n, revealFile uri = some n → n.selectable = true →
        (onCurrentWidgetChangedHandler autoReveal revealFile (some w) s).selection =
          some n) ∧
    (∀ n, revealFile uri = some n → n.selectable = false →
        (onCurrentWidgetChangedHandler autoReveal revealFile (some w) s).selection =
          s.selection) ∧
    (revealFile uri = none →
        (onCurrentWidgetChangedHandler autoReveal revealFile (some w) s).selection =
          s.selection) := by
  subst har
  unfold onCurrentWidgetChangedHandler selectWidgetFileNode
  simp only [if_true, hnav, huri]
  refine ⟨?_, ?_, ?_, ?_⟩
  · cases hrev : revealFile uri with
    | none => simp [hrev]
    | some n =>
        by_cases hsel : n.selectable <;> simp [hrev, hsel]
  · intro n hn hsel
    rw [hn]
    simp [hsel]
  · intro n hn hsel
    rw [hn]
    simp [hsel]
  · intro hn
    rw [hn]

theorem tabChange_reveals_and_selects_witness :
    (onCurrentWidgetChangedHandler true sampleRevealFn (some sampleWidget)
        emptyNavState).revealed =
      emptyNavState.revealed ++ ["file:///home/sketchbook/blink/blink.ino"] ∧
    (onCurrentWidgetChangedHandler true sampleRevealFn (some sampleWidget)
        emptyNavState).selection = some sampleRevealNode :=
  ⟨(tabChange_reveals_and_selects true sampleRevealFn sampleWidget
      "file:///home/sketchbook/blink/blink.ino" emptyNavState rfl rfl rfl).1,
    (tabChange_reveals_and_selects true sampleRevealFn sampleWidget
      "file:///home/sketchbook/blink/blink.ino" emptyNavState rfl rfl rfl).2.1
      sampleRevealNode (by decide) rfl⟩

/-- Claim C6: a tab change mutates nothing — neither the tree selection
nor any other modelled state — when the auto-reveal preference is
disabled, or when there is no widget, or when the widget is not
navigatable or lacks a resource URI. -/
theorem tabChange_frame (autoReveal : Bool)
    (revealFile : String → Option RevealNode)
    (currentWidget : Option NavWidget) (s : NavState)
    (h : autoReveal = false ∨ currentWidget = none ∨
      ∃ w, currentWidget = some w ∧
        (w.navigatable = false ∨ w.resourceUri = none)) :
    onCurrentWidgetChangedHandler autoReveal revealFile currentWidget s = s := by
  rcases h with h | h | ⟨w, hw, h⟩
  · simp [onCurrentWidgetChangedHandler, h]
  · cases autoReveal <;> simp [onCurrentWidgetChangedHandler, selectWidgetFileNode, h]
  · subst hw
    rcases h with h | h <;>
      cases autoReveal <;>
        simp [onCurrentWidgetChangedHandler, selectWidgetFileNode, h]

theorem tabChange_frame_witness :
    onCurrentWidgetChangedHandler false sampleRevealFn (some sampleWidget)
      emptyNavState = emptyNavState :=
  tabChange_frame false sampleRevealFn (some sampleWidget) emptyNavState
    (Or.inl rfl)

/-- Claim C4: the "open in new window" and "reveal in file system"
commands share one enablement and visibility predicate: each of the four
queries is enabled/visible exactly when the argument is truthy, carries a
`node` property, and that node is a sketch-directory node; in particular
each returns false when the argument has no node or the node is not a
sketch-directory node. -/
theorem commands_shared_enablement (a : CmdArg) :
    revealInFinder_isEnabled a = openNewWindow_isEnabled a ∧
    openNewWindow_isVisible a = openNewWindow_isEnabled a ∧
    revealInFinder_isVisible a = openNewWindow_isEnabled a ∧
    (openNewWindow_isEnabled a = true ↔
      argTruthy a = true ∧ argHasNode a = true ∧ argNodeIsSketchDir a = true) ∧
    (argHasNode a = false → openNewWindow_isEnabled a = false) ∧
    (argNodeIsSketchDir a = false → openNewWindow_isEnabled a = false) := by
  cases a <;>
    simp [openNewWindow_isEnabled, openNewWindow_isVisible,
      revealInFinder_isEnabled, revealInFinder_isVisible,
      argTruthy, argHasNode, argNodeIsSketchDir]

theorem commands_shared_enablement_witness :
    openNewWindow_isEnabled CmdArg.withoutNode = false :=
  (commands_shared_enablement CmdArg.withoutNode).2.2.2.2.1 rfl

/-- Claim C9: the context-menu-opening command is guarded by the same
predicate as the two named commands — enabled and visible exactly when
the argument is truthy, carries a `node` property, and that node is a
sketch-directory node — so the context menu can only be opened for a
sketch-directory node. -/
theorem contextMenu_command_same_guard (a : CmdArg) :
    contextMenu_isEnabled a = openNewWindow_isEnabled a ∧
    contextMenu_isVisible a = openNewWindow_isEnabled a ∧
    contextMenu_isEnabled a = contextMenu_isVisible a ∧
    (contextMenu_isEnabled a = true ↔
      argTruthy a = true ∧ argHasNode a = true ∧ argNodeIsSketchDir a = true) := by
  cases a <;>
    simp [contextMenu_isEnabled, contextMenu_isVisible, openNewWindow_isEnabled,
      argTruthy, argHasNode, argNodeIsSketchDir]

/-- Claim C7: executing "open in new window" first resolves the node's
URI to its underlying file-system resource via the file service and then
opens exactly that resolved resource through the workspace-open
operation; the trace depends only on the node's URI, not on its id or
sketch-directory flag. -/
theorem openNewWindow_opens_underlying (resolve : String → String)
    (node : SketchNode) (i : String) (b : Bool) :
    executeOpenNewWindow resolve node =
      [ServiceCall.toUnderlyingResource node.uri,
        ServiceCall.workspaceOpen (resolve node.uri)] ∧
    executeOpenNewWindow resolve { uri := node.uri, id := i, isSketchDir := b } =
      executeOpenNewWindow resolve node :=
  ⟨rfl, rfl⟩

/-- Claim C10: executing "reveal in file system" passes the node's `id`
field — not its URI — to the native file-manager open-path operation (the
trace is unchanged under any change of the node's URI) and ignores the
operation's result (the trace is the same for any result function). -/
theorem revealInFinder_passes_node_id (r1 r2 : String → String)
    (node : SketchNode) (u : String) (b : Bool) :
    executeRevealInFinder r1 node = [ServiceCall.shellOpenPath node.id] ∧
    executeRevealInFinder r1 { uri := u, id := node.id, isSketchDir := b } =
      executeRevealInFinder r1 node ∧
    executeRevealInFinder r1 node = executeRevealInFinder r2 node :=
  ⟨rfl, rfl, rfl⟩
